import Mathlib

/-!
Verification of the YALL Limelight array-decoding layer.

Shallow embedding conventions:
* Wire doubles (the flat `double[]` arrays read from / written to the
  NetworkTables bus) are modelled as exact rationals `ℚ`; the decoder's
  arithmetic (bounds checks, truncation, timestamp adjustment, ambiguity
  aggregation) is exact in `ℚ`.
* Angle objects produced by the wpimath geometry library (`Rotation3d`,
  built from `math.radians(...)` values) live in `ℝ`, since the
  degree→radian conversion multiplies by `π/180`.
* Python `int(x)` is truncation toward zero (`pyTrunc`).
* The mutating method `PoseEstimate.getPoseEstimate` (it updates `self`'s
  fields and then does `return self`) is modelled as a state-transition
  function `PoseEstimate → input → PoseEstimate × Option Unit`: the first
  component is the new field-state of the single `PoseEstimate` object and
  the second is `some ()` exactly when the Python method returns `self`
  (returning `None` is `none`).  Since the method returns `self`, the
  object a caller received from an earlier call is the same mutable cell
  whose field-state the next call produces.
-/

/-- Python `int(x)` applied to a wire double: truncation toward zero. -/
def pyTrunc (q : ℚ) : ℤ := if 0 ≤ q then ⌊q⌋ else ⌈q⌉

/-- wpimath `Rotation3d` constructed from roll/pitch/yaw Euler angles in
radians (the only way this codebase builds or reads rotations). -/
structure Rotation3d where
  roll : ℝ
  pitch : ℝ
  yaw : ℝ

/-- Python `math.radians` applied to a wire double: degrees to radians. -/
noncomputable def degToRad (d : ℚ) : ℝ := (d : ℝ) * Real.pi / 180

/-- wpimath `Pose3d`: a translation plus a `Rotation3d`.  The translation
components come straight off the wire (`ℚ`); the rotation is radian-valued. -/
structure Pose3d where
  x : ℚ
  y : ℚ
  z : ℚ
  rot : Rotation3d

/-- `results.RawFiducial`: one decoded AprilTag record.  The Python
constructor defaults every field to zero. -/
structure RawFiducial where
  id : ℤ := 0
  txnc : ℚ := 0
  tync : ℚ := 0
  ta : ℚ := 0
  distToCamera : ℚ := 0
  distToRobot : ℚ := 0
  ambiguity : ℚ := 0
deriving DecidableEq

/-- `results.RawDetection`: one decoded neural-detector record.  The Python
constructor defaults every field to zero. -/
structure RawDetection where
  class_id : ℤ := 0
  txnc : ℚ := 0
  tync : ℚ := 0
  ta : ℚ := 0
  corner0_X : ℚ := 0
  corner0_Y : ℚ := 0
  corner1_X : ℚ := 0
  corner1_Y : ℚ := 0
  corner2_X : ℚ := 0
  corner2_Y : ℚ := 0
  corner3_X : ℚ := 0
  corner3_Y : ℚ := 0
deriving DecidableEq

namespace LimelightUtils

/-- `LimelightUtils.extractArrayEntry`: bounds-checked indexed read; returns
`0` when `position` is out of range. -/
def extractArrayEntry (inData : List ℚ) (position : ℕ) : ℚ :=
  if inData.length ≤ position then 0 else inData.getD position 0

/-- `LimelightUtils.toPose3d`: decodes a pose array
`[x, y, z, roll, pitch, yaw]` (angles in degrees on the wire); returns
`none` when fewer than 6 elements are present.  The indexed reads in the
source are guarded by the length check, so `getD` with default `0` reads
exactly the same positions. -/
noncomputable def toPose3d (inData : List ℚ) : Option Pose3d :=
  if inData.length < 6 then none
  else
    some ⟨inData.getD 0 0, inData.getD 1 0, inData.getD 2 0,
      ⟨degToRad (inData.getD 3 0), degToRad (inData.getD 4 0),
        degToRad (inData.getD 5 0)⟩⟩

end LimelightUtils

/-- `AngularVelocity3d`: roll/pitch/yaw angular velocities (the source
annotates them `radians_per_second`). -/
structure AngularVelocity3d where
  roll : ℝ
  pitch : ℝ
  yaw : ℝ

/-- `Orientation3d`: a wpimath `Rotation3d` plus an `AngularVelocity3d`. -/
structure Orientation3d where
  orientation : Rotation3d
  angularVelocity : AngularVelocity3d

/-- `LimelightUtils.orientation3dToArray`: the source returns
`[o.orientation.Z(), o.angularVelocity.yaw, o.orientation.Y(),
o.angularVelocity.pitch, o.orientation.X(), o.angularVelocity.roll]`.
wpimath `Rotation3d.X()/Y()/Z()` return the roll/pitch/yaw angle in
RADIANS (the degree accessors are the separate `x_degrees` etc., which
`pose3dToArray` uses); so this emits the raw radian components. -/
def LimelightUtils.orientation3dToArray (o : Orientation3d) : List ℝ :=
  [o.orientation.yaw, o.angularVelocity.yaw,
   o.orientation.pitch, o.angularVelocity.pitch,
   o.orientation.roll, o.angularVelocity.roll]

/-- Real-number-semantics pose value, used to state the encode/decode
round trip of `pose3dToArray` / `toPose3d` over exact real arithmetic
(the encoder's `x_degrees` accessors are real-valued, so the composed
round trip is stated on `ℝ`-valued arrays). -/
structure Pose3dR where
  x : ℝ
  y : ℝ
  z : ℝ
  rot : Rotation3d

/-- Python `math.radians` over the real-number semantics. -/
noncomputable def radiansR (d : ℝ) : ℝ := d * Real.pi / 180

/-- wpimath `x_degrees` accessor over the real-number semantics:
radians to degrees. -/
noncomputable def degreesR (r : ℝ) : ℝ := r * 180 / Real.pi

/-- `LimelightUtils.toPose3d` at the real-number semantics: same source
lines as `LimelightUtils.toPose3d`, with the wire array read as exact
reals. -/
noncomputable def LimelightUtils.toPose3dR (inData : List ℝ) : Option Pose3dR :=
  if inData.length < 6 then none
  else
    some ⟨inData.getD 0 0, inData.getD 1 0, inData.getD 2 0,
      ⟨radiansR (inData.getD 3 0), radiansR (inData.getD 4 0),
        radiansR (inData.getD 5 0)⟩⟩

/-- `LimelightUtils.pose3dToArray`: returns
`[p.X(), p.Y(), p.Z(), p.rotation().x_degrees, p.rotation().y_degrees,
p.rotation().z_degrees]` (degree conversion on the rotation components). -/
noncomputable def LimelightUtils.pose3dToArray (p : Pose3dR) : List ℝ :=
  [p.x, p.y, p.z, degreesR p.rot.roll, degreesR p.rot.pitch, degreesR p.rot.yaw]

/-- Field-state of the single mutable `PoseEstimate` object.  The Python
constructor zeroes every field (`rawFiducials` is left unassigned and is
never read while `hasData` is false; it is modelled as `[]`). -/
structure PoseEstimate where
  pose : Pose3d
  timestampSeconds : ℚ
  latency : ℚ
  tagCount : ℤ
  tagSpan : ℚ
  avgTagDist : ℚ
  avgTagArea : ℚ
  rawFiducials : List RawFiducial
  hasData : Bool

/-- The field-state established by `PoseEstimate.__init__`. -/
def initPoseEstimate : PoseEstimate :=
  { pose := ⟨0, 0, 0, ⟨0, 0, 0⟩⟩
    timestampSeconds := 0
    latency := 0
    tagCount := 0
    tagSpan := 0
    avgTagDist := 0
    avgTagArea := 0
    rawFiducials := []
    hasData := false }

/-- One `RawFiducial` decoded inside `getPoseEstimate`'s populate loop at
`baseIndex = 11 + i * 7` (direct indexing in the source; in the populated
branch every index is in range, so `getD` reads the same positions). -/
def fiducialFromPoseArray (poseArray : List ℚ) (i : ℕ) : RawFiducial :=
  { id := pyTrunc (poseArray.getD (11 + i * 7) 0)
    txnc := poseArray.getD (11 + i * 7 + 1) 0
    tync := poseArray.getD (11 + i * 7 + 2) 0
    ta := poseArray.getD (11 + i * 7 + 3) 0
    distToCamera := poseArray.getD (11 + i * 7 + 4) 0
    distToRobot := poseArray.getD (11 + i * 7 + 5) 0
    ambiguity := poseArray.getD (11 + i * 7 + 6) 0 }

/-- The `rawFiducials` list built by `getPoseEstimate`: the source starts
from `[results.RawFiducial()] * tagCount` (a list of `tagCount` default
records; empty when `tagCount` is negative, as in Python) and only
overwrites its entries when `len(poseArray) == 11 + 7 * tagCount`. -/
def decodedFiducials (poseArray : List ℚ) : List RawFiducial :=
  if (poseArray.length : ℤ) ≠
      11 + 7 * pyTrunc (LimelightUtils.extractArrayEntry poseArray 7) then
    List.replicate (pyTrunc (LimelightUtils.extractArrayEntry poseArray 7)).toNat {}
  else
    (List.range (pyTrunc (LimelightUtils.extractArrayEntry poseArray 7)).toNat).map
      (fiducialFromPoseArray poseArray)

/-- `PoseEstimate.getPoseEstimate`, as a transition on the object's
field-state.  Inputs are the atomic bus read (`poseArray`, `timestamp` in
microseconds).  Result: the new field-state of the object and `some ()`
when the method returns `self` (`none` models a Python `return None`).
Branches, in source order: empty array sets `hasData = False` and returns
`None`; a failed `toPose3d` (fewer than 6 elements) returns `None` without
touching any field; otherwise every snapshot field is overwritten and
`self` is returned with `hasData = len(rawFiducials) > 0`. -/
noncomputable def PoseEstimate.getPoseEstimate (self : PoseEstimate)
    (poseArray : List ℚ) (timestamp : ℤ) : PoseEstimate × Option Unit :=
  if poseArray.length = 0 then
    ({ self with hasData := false }, none)
  else
    match LimelightUtils.toPose3d poseArray with
    | none => (self, none)
    | some p =>
        ({ self with
            pose := p
            timestampSeconds := (timestamp : ℚ) / 1000000 -
              LimelightUtils.extractArrayEntry poseArray 6 / 1000
            latency := LimelightUtils.extractArrayEntry poseArray 6
            tagCount := pyTrunc (LimelightUtils.extractArrayEntry poseArray 7)
            tagSpan := LimelightUtils.extractArrayEntry poseArray 8
            avgTagDist := LimelightUtils.extractArrayEntry poseArray 9
            avgTagArea := LimelightUtils.extractArrayEntry poseArray 10
            rawFiducials := decodedFiducials poseArray
            hasData := decide (0 < (decodedFiducials poseArray).length) },
         some ())

/-- `PoseEstimate.getMinTagAmbiguity`: returns `1` when `hasData` is
false; otherwise Python's `min` over the ambiguities (`none` models the
`ValueError` Python's `min` raises on an empty sequence — unreachable in
reachable states). -/
def PoseEstimate.getMinTagAmbiguity (self : PoseEstimate) : Option ℚ :=
  if self.hasData = false then some 1
  else
    match self.rawFiducials.map (fun fiducial => fiducial.ambiguity) with
    | [] => none
    | a :: rest => some (rest.foldl min a)

/-- `PoseEstimate.getMaxTagAmbiguity`: returns `1` when `hasData` is
false; otherwise Python's `max` over the ambiguities. -/
def PoseEstimate.getMaxTagAmbiguity (self : PoseEstimate) : Option ℚ :=
  if self.hasData = false then some 1
  else
    match self.rawFiducials.map (fun fiducial => fiducial.ambiguity) with
    | [] => none
    | a :: rest => some (rest.foldl max a)

/-- `PoseEstimate.getAvgTagAmbiguity`: returns `1` when `hasData` is
false; otherwise sum of ambiguities divided by the list length (`none`
models the `ZeroDivisionError` on an empty list). -/
def PoseEstimate.getAvgTagAmbiguity (self : PoseEstimate) : Option ℚ :=
  if self.hasData = false then some 1
  else if self.rawFiducials.length = 0 then none
  else
    some ((self.rawFiducials.map (fun fiducial => fiducial.ambiguity)).sum /
      self.rawFiducials.length)

/-- Field-states of the `PoseEstimate` object reachable from construction
by any sequence of `getPoseEstimate` calls (with arbitrary bus reads). -/
inductive ReachablePoseEstimate : PoseEstimate → Prop
  | init : ReachablePoseEstimate initPoseEstimate
  | step (s : PoseEstimate) (poseArray : List ℚ) (timestamp : ℤ) :
      ReachablePoseEstimate s →
      ReachablePoseEstimate (s.getPoseEstimate poseArray timestamp).1

namespace LimelightData

/-- One `RawFiducial` decoded by `LimelightData.getRawFiducials` at the
given base index (the source reads via `extractArrayEntry`). -/
def rawFiducialAt (arr : List ℚ) (baseIndex : ℕ) : RawFiducial :=
  { id := pyTrunc (LimelightUtils.extractArrayEntry arr baseIndex)
    txnc := LimelightUtils.extractArrayEntry arr (baseIndex + 1)
    tync := LimelightUtils.extractArrayEntry arr (baseIndex + 2)
    ta := LimelightUtils.extractArrayEntry arr (baseIndex + 3)
    distToCamera := LimelightUtils.extractArrayEntry arr (baseIndex + 4)
    distToRobot := LimelightUtils.extractArrayEntry arr (baseIndex + 5)
    ambiguity := LimelightUtils.extractArrayEntry arr (baseIndex + 6) }

/-- `LimelightData.getRawFiducials`: stride 7; rejects (returns `[]`) when
the length is not a multiple of 7, otherwise decodes `length / 7` records. -/
def getRawFiducials (arr : List ℚ) : List RawFiducial :=
  if arr.length % 7 ≠ 0 then []
  else (List.range (arr.length / 7)).map (fun i => rawFiducialAt arr (i * 7))

/-- One `RawDetection` decoded by `LimelightData.getRawDetections` at the
given base index. -/
def rawDetectionAt (arr : List ℚ) (baseIndex : ℕ) : RawDetection :=
  { class_id := pyTrunc (LimelightUtils.extractArrayEntry arr baseIndex)
    txnc := LimelightUtils.extractArrayEntry arr (baseIndex + 1)
    tync := LimelightUtils.extractArrayEntry arr (baseIndex + 2)
    ta := LimelightUtils.extractArrayEntry arr (baseIndex + 3)
    corner0_X := LimelightUtils.extractArrayEntry arr (baseIndex + 4)
    corner0_Y := LimelightUtils.extractArrayEntry arr (baseIndex + 5)
    corner1_X := LimelightUtils.extractArrayEntry arr (baseIndex + 6)
    corner1_Y := LimelightUtils.extractArrayEntry arr (baseIndex + 7)
    corner2_X := LimelightUtils.extractArrayEntry arr (baseIndex + 8)
    corner2_Y := LimelightUtils.extractArrayEntry arr (baseIndex + 9)
    corner3_X := LimelightUtils.extractArrayEntry arr (baseIndex + 10)
    corner3_Y := LimelightUtils.extractArrayEntry arr (baseIndex + 11) }

/-- `LimelightData.getRawDetections`: stride 12; rejects (returns `[]`)
when the length is not a multiple of 12, otherwise decodes `length / 12`
records. -/
def getRawDetections (arr : List ℚ) : List RawDetection :=
  if arr.length % 12 ≠ 0 then []
  else (List.range (arr.length / 12)).map (fun i => rawDetectionAt arr (i * 12))

end LimelightData

namespace LimelightTargetData

/-- `LimelightTargetData.getTargetCount`: `int(t2d[1])` when the t2d array
has exactly 17 entries, otherwise `0`. -/
def getTargetCount (t2d : List ℚ) : ℤ :=
  if t2d.length = 17 then pyTrunc (t2d.getD 1 0) else 0

/-- `LimelightTargetData.getClassifierClassIndex`: `int(t2d[10])` when the
t2d array has exactly 17 entries, otherwise `0`. -/
def getClassifierClassIndex (t2d : List ℚ) : ℤ :=
  if t2d.length = 17 then pyTrunc (t2d.getD 10 0) else 0

/-- `LimelightTargetData.getDetectorClassIndex`: `int(t2d[11])` when the
t2d array has exactly 17 entries, otherwise `0`. -/
def getDetectorClassIndex (t2d : List ℚ) : ℤ :=
  if t2d.length = 17 then pyTrunc (t2d.getD 11 0) else 0

end LimelightTargetData

/-- Claim C5: `toPose3d` returns `none` for every input array of length
less than 6, and for every array of length at least 6 returns the pose
with position `(data[0], data[1], data[2])` and a rotation built from the
degree-to-radian conversions of `data[3], data[4], data[5]` in
roll-pitch-yaw order. -/
theorem c5_toPose3d_spec (data : List ℚ) :
    (data.length < 6 → LimelightUtils.toPose3d data = none) ∧
    (6 ≤ data.length → LimelightUtils.toPose3d data =
      some ⟨data.getD 0 0, data.getD 1 0, data.getD 2 0,
        ⟨degToRad (data.getD 3 0), degToRad (data.getD 4 0),
          degToRad (data.getD 5 0)⟩⟩) := by
  constructor
  · intro h
    simp [LimelightUtils.toPose3d, h]
  · intro h
    simp [LimelightUtils.toPose3d, Nat.not_lt.mpr h]

/-- Claim C5, concrete instances: `decodePose6([])` and
`decodePose6([1,2,3,4])` are absent and `decodePose6([1,2,3,0,0,0])` is
the pose at `(1,2,3)` with zero rotation. -/
theorem c5_toPose3d_spec_witness :
    LimelightUtils.toPose3d [] = none ∧
    LimelightUtils.toPose3d [1, 2, 3, 4] = none ∧
    LimelightUtils.toPose3d [1, 2, 3, 0, 0, 0] = some ⟨1, 2, 3, ⟨0, 0, 0⟩⟩ := by
  refine ⟨(c5_toPose3d_spec []).1 (by decide),
    (c5_toPose3d_spec [1, 2, 3, 4]).1 (by decide), ?_⟩
  have h := (c5_toPose3d_spec [1, 2, 3, 0, 0, 0]).2 (by decide)
  rw [h]
  simp [degToRad]

/-- Claim C10: the round trip `toPose3d (pose3dToArray p)` reproduces `p`
exactly over real-number arithmetic (the radian→degree and degree→radian
conversions compose to the identity since `π ≠ 0`). -/
theorem c10_pose_roundtrip (p : Pose3dR) :
    LimelightUtils.toPose3dR (LimelightUtils.pose3dToArray p) = some p := by
  obtain ⟨x, y, z, a, b, c⟩ := p
  simp only [LimelightUtils.toPose3dR, LimelightUtils.pose3dToArray,
    radiansR, degreesR]
  norm_num [List.getD]
  refine ⟨?_, ?_, ?_⟩ <;>
    · field_simp

/-- Claim C4 evaluated at a failing input: for the orientation whose yaw
is `π` radians (180 degrees) with zero rates, `orientation3dToArray`
emits `π` (the raw radian value) as the first element; a degree-converted
encoding would emit `180`, and `π ≠ 180`.  The wire order itself is
yaw-first as claimed; only the radian→degree conversion is missing (the
function's own docstring says the array is in degrees, and the sibling
`pose3dToArray` does convert via the `x_degrees` accessors). -/
theorem c4_orientation_radians_bug :
    LimelightUtils.orientation3dToArray ⟨⟨0, 0, Real.pi⟩, ⟨0, 0, 0⟩⟩ =
      [Real.pi, 0, 0, 0, 0, 0] ∧ Real.pi ≠ 180 := by
  constructor
  · rfl
  · intro h
    have hlt := Real.pi_lt_d2
    rw [h] at hlt
    norm_num at hlt

/-- Claim C8: for every t2d array whose length is not exactly 17, the
three derived getters return `0` regardless of content; when the length
is exactly 17 they return the truncations of `t2d[1]`, `t2d[10]` and
`t2d[11]` respectively. -/
theorem c8_t2d_getters (t2d : List ℚ) :
    (t2d.length ≠ 17 →
      LimelightTargetData.getTargetCount t2d = 0 ∧
      LimelightTargetData.getClassifierClassIndex t2d = 0 ∧
      LimelightTargetData.getDetectorClassIndex t2d = 0) ∧
    (t2d.length = 17 →
      LimelightTargetData.getTargetCount t2d = pyTrunc (t2d.getD 1 0) ∧
      LimelightTargetData.getClassifierClassIndex t2d = pyTrunc (t2d.getD 10 0) ∧
      LimelightTargetData.getDetectorClassIndex t2d = pyTrunc (t2d.getD 11 0)) := by
  constructor <;> intro h <;>
    simp [LimelightTargetData.getTargetCount,
      LimelightTargetData.getClassifierClassIndex,
      LimelightTargetData.getDetectorClassIndex, h]

/-- Claim C8, concrete instances: a 5-element t2d array yields all zeros;
a 17-element array yields the truncated entries at indices 1, 10, 11. -/
theorem c8_t2d_getters_witness :
    LimelightTargetData.getTargetCount [9, 9, 9, 9, 9] = 0 ∧
    LimelightTargetData.getClassifierClassIndex [9, 9, 9, 9, 9] = 0 ∧
    LimelightTargetData.getDetectorClassIndex [9, 9, 9, 9, 9] = 0 ∧
    LimelightTargetData.getTargetCount
      [0, 3, 0, 0, 0, 0, 0, 0, 0, 0, 4, 5, 0, 0, 0, 0, 0] = 3 ∧
    LimelightTargetData.getClassifierClassIndex
      [0, 3, 0, 0, 0, 0, 0, 0, 0, 0, 4, 5, 0, 0, 0, 0, 0] = 4 ∧
    LimelightTargetData.getDetectorClassIndex
      [0, 3, 0, 0, 0, 0, 0, 0, 0, 0, 4, 5, 0, 0, 0, 0, 0] = 5 := by
  have h1 := (c8_t2d_getters [9, 9, 9, 9, 9]).1 (by decide)
  have h2 := (c8_t2d_getters
    [0, 3, 0, 0, 0, 0, 0, 0, 0, 0, 4, 5, 0, 0, 0, 0, 0]).2 (by decide)
  exact ⟨h1.1, h1.2.1, h1.2.2, h2.1.trans (by decide),
    h2.2.1.trans (by decide), h2.2.2.trans (by decide)⟩

/-- Claim C6: whenever `getPoseEstimate` returns a result, the adjusted
timestamp it stores equals `rawTimestampMicros / 1000000 − latencyMillis
/ 1000`, where the latency is the decoded entry at index 6. -/
theorem c6_timestamp_adjustment (s : PoseEstimate) (arr : List ℚ) (t : ℤ)
    (s' : PoseEstimate) (h : s.getPoseEstimate arr t = (s', some ())) :
    s'.timestampSeconds =
      (t : ℚ) / 1000000 - LimelightUtils.extractArrayEntry arr 6 / 1000 := by
  unfold PoseEstimate.getPoseEstimate at h
  split at h
  · exact absurd (congrArg Prod.snd h) (by simp)
  · split at h
    · exact absurd (congrArg Prod.snd h) (by simp)
    · have h1 := congrArg Prod.fst h
      simp only at h1
      rw [← h1]

/-- Claim C6, concrete instance: `timestampMicros = 2000000` with a
decoded latency of `50` milliseconds yields `1.95` seconds. -/
theorem c6_timestamp_adjustment_witness :
    (initPoseEstimate.getPoseEstimate
      [1, 2, 3, 0, 0, 0, 50, 0, 0, 0, 0] 2000000).1.timestampSeconds = 1.95 := by
  have h := c6_timestamp_adjustment initPoseEstimate
    [1, 2, 3, 0, 0, 0, 50, 0, 0, 0, 0] 2000000
    (initPoseEstimate.getPoseEstimate
      [1, 2, 3, 0, 0, 0, 50, 0, 0, 0, 0] 2000000).1 rfl
  rw [h]
  norm_num [LimelightUtils.extractArrayEntry]

/-- Claim C7: `getRawFiducials` rejects (returns `[]`) whenever the array
length is not a multiple of 7 and `getRawDetections` whenever it is not a
multiple of 12, regardless of content; on an exact multiple each returns
exactly `length / stride` records, record `i` being decoded at base index
`i * stride`, and every position read for record `i` (up to `base +
stride - 1`) lies inside the array. -/
theorem c7_raw_decoders_reject_or_decode (f d : List ℚ) :
    (f.length % 7 ≠ 0 → LimelightData.getRawFiducials f = []) ∧
    (f.length % 7 = 0 →
      (LimelightData.getRawFiducials f).length = f.length / 7 ∧
      ∀ i, i < f.length / 7 →
        (LimelightData.getRawFiducials f)[i]? =
          some (LimelightData.rawFiducialAt f (i * 7)) ∧
        i * 7 + 6 < f.length) ∧
    (d.length % 12 ≠ 0 → LimelightData.getRawDetections d = []) ∧
    (d.length % 12 = 0 →
      (LimelightData.getRawDetections d).length = d.length / 12 ∧
      ∀ i, i < d.length / 12 →
        (LimelightData.getRawDetections d)[i]? =
          some (LimelightData.rawDetectionAt d (i * 12)) ∧
        i * 12 + 11 < d.length) := by
  refine ⟨fun h => by simp [LimelightData.getRawFiducials, h],
    fun h => ?_, fun h => by simp [LimelightData.getRawDetections, h],
    fun h => ?_⟩
  · have hdvd := Nat.div_mul_cancel (Nat.dvd_of_mod_eq_zero h)
    constructor
    · simp [LimelightData.getRawFiducials, h]
    · intro i hi
      refine ⟨?_, by omega⟩
      simp [LimelightData.getRawFiducials, h, List.getElem?_map,
        List.getElem?_range hi]
  · have hdvd := Nat.div_mul_cancel (Nat.dvd_of_mod_eq_zero h)
    constructor
    · simp [LimelightData.getRawDetections, h]
    · intro i hi
      refine ⟨?_, by omega⟩
      simp [LimelightData.getRawDetections, h, List.getElem?_map,
        List.getElem?_range hi]

/-- Claim C7, concrete instances: a 3-element fiducial array (not a
multiple of 7) and a 5-element detection array (not a multiple of 12)
both decode to `[]`; a 7-element fiducial array decodes to exactly one
record and a 12-element detection array to exactly one record. -/
theorem c7_raw_decoders_witness :
    LimelightData.getRawFiducials [1, 2, 3] = [] ∧
    (LimelightData.getRawFiducials [1, 2, 3, 4, 5, 6, 7]).length = 1 ∧
    LimelightData.getRawDetections [1, 2, 3, 4, 5] = [] ∧
    (LimelightData.getRawDetections
      [1, 2, 3, 4, 5, 6, 7, 8, 9, 10, 11, 12]).length = 1 := by
  refine ⟨(c7_raw_decoders_reject_or_decode [1, 2, 3] []).1 (by decide),
    ((c7_raw_decoders_reject_or_decode [1, 2, 3, 4, 5, 6, 7] []).2.1
      (by decide)).1.trans (by decide),
    (c7_raw_decoders_reject_or_decode [] [1, 2, 3, 4, 5]).2.2.1 (by decide),
    ((c7_raw_decoders_reject_or_decode []
      [1, 2, 3, 4, 5, 6, 7, 8, 9, 10, 11, 12]).2.2.2 (by decide)).1.trans
      (by decide)⟩

/-- Claim C1 counterexample: for the 11-element array
`[1,2,3,0,0,0,50,2,0,0,0]` (pose decodes, `tagCount = 2`, length `11 ≠
25 = 11 + 7 * 2`) the decode returns a result whose fiducial list has 2
(placeholder) entries — not empty — and whose `hasData` is `true` — not
false — refuting the claim at this input. -/
theorem c1_mismatch_counterexample :
    (initPoseEstimate.getPoseEstimate
      [1, 2, 3, 0, 0, 0, 50, 2, 0, 0, 0] 0).2 = some () ∧
    (initPoseEstimate.getPoseEstimate
      [1, 2, 3, 0, 0, 0, 50, 2, 0, 0, 0] 0).1.hasData = true ∧
    (initPoseEstimate.getPoseEstimate
      [1, 2, 3, 0, 0, 0, 50, 2, 0, 0, 0] 0).1.rawFiducials.length = 2 := by
  refine ⟨rfl, rfl, rfl⟩

/-- Claim C1 as amended: when the first 6 elements decode to a pose and
the total length is not `11 + 7 * tagCount`, the decode still populates
the pose, latency, tagSpan, avgTagDist and avgTagArea fields, but the
fiducial list consists of `tagCount` default-constructed placeholder
records (none decoded from the array; empty when `tagCount ≤ 0`) and
`hasData` is true exactly when `tagCount > 0` — not unconditionally
false. -/
theorem c1_amended_mismatch_placeholders (s : PoseEstimate) (arr : List ℚ)
    (t : ℤ) (p : Pose3d) (hp : LimelightUtils.toPose3d arr = some p)
    (hlen : (arr.length : ℤ) ≠
      11 + 7 * pyTrunc (LimelightUtils.extractArrayEntry arr 7)) :
    (s.getPoseEstimate arr t).2 = some () ∧
    (s.getPoseEstimate arr t).1.pose = p ∧
    (s.getPoseEstimate arr t).1.latency =
      LimelightUtils.extractArrayEntry arr 6 ∧
    (s.getPoseEstimate arr t).1.tagSpan =
      LimelightUtils.extractArrayEntry arr 8 ∧
    (s.getPoseEstimate arr t).1.avgTagDist =
      LimelightUtils.extractArrayEntry arr 9 ∧
    (s.getPoseEstimate arr t).1.avgTagArea =
      LimelightUtils.extractArrayEntry arr 10 ∧
    (s.getPoseEstimate arr t).1.rawFiducials =
      List.replicate (pyTrunc (LimelightUtils.extractArrayEntry arr 7)).toNat
        {} ∧
    ((s.getPoseEstimate arr t).1.hasData = true ↔
      0 < pyTrunc (LimelightUtils.extractArrayEntry arr 7)) := by
  have h6 : ¬ arr.length < 6 := by
    intro hl
    simp [LimelightUtils.toPose3d, hl] at hp
  have h0 : ¬ arr.length = 0 := by omega
  have hfid : decodedFiducials arr =
      List.replicate (pyTrunc (LimelightUtils.extractArrayEntry arr 7)).toNat
        {} := by
    unfold decodedFiducials
    rw [if_pos hlen]
  unfold PoseEstimate.getPoseEstimate
  rw [if_neg h0, hp]
  refine ⟨rfl, rfl, rfl, rfl, rfl, rfl, hfid, ?_⟩
  show decide (0 < (decodedFiducials arr).length) = true ↔ _
  rw [hfid]
  simp only [List.length_replicate, decide_eq_true_eq]
  omega

/-- Claim C1 amended, concrete instance: the array
`[1,2,3,0,0,0,50,2,0,0,0]` with `tagCount = 2` and length `11 ≠ 25`
yields a result with the pose and scalar fields populated, two
placeholder fiducials and `hasData = true`. -/
theorem c1_amended_mismatch_placeholders_witness :
    (initPoseEstimate.getPoseEstimate
      [1, 2, 3, 0, 0, 0, 50, 2, 0, 0, 0] 0).2 = some () ∧
    (initPoseEstimate.getPoseEstimate
      [1, 2, 3, 0, 0, 0, 50, 2, 0, 0, 0] 0).1.pose =
        ⟨1, 2, 3, ⟨degToRad 0, degToRad 0, degToRad 0⟩⟩ ∧
    (initPoseEstimate.getPoseEstimate
      [1, 2, 3, 0, 0, 0, 50, 2, 0, 0, 0] 0).1.latency = 50 ∧
    (initPoseEstimate.getPoseEstimate
      [1, 2, 3, 0, 0, 0, 50, 2, 0, 0, 0] 0).1.rawFiducials =
        List.replicate 2 {} ∧
    ((initPoseEstimate.getPoseEstimate
      [1, 2, 3, 0, 0, 0, 50, 2, 0, 0, 0] 0).1.hasData = true ↔
        (0 : ℤ) < 2) := by
  have h := c1_amended_mismatch_placeholders initPoseEstimate
    [1, 2, 3, 0, 0, 0, 50, 2, 0, 0, 0] 0
    ⟨1, 2, 3, ⟨degToRad 0, degToRad 0, degToRad 0⟩⟩ rfl (by decide)
  refine ⟨h.1, h.2.1, h.2.2.1.trans (by decide), ?_, ?_⟩
  · rw [h.2.2.2.2.2.2.1]
    rfl
  · rw [h.2.2.2.2.2.2.2]
    decide

/-- Claim C2 counterexample: for the 11-element array
`[1,2,3,0,0,0,0,-1,0,0,0]` the decoded `tagCount` is `-1`, the call
returns a result, and its fiducial list has `0` elements — not "exactly
tagCount" — because Python's list-repetition with a negative count yields
an empty list. -/
theorem c2_negative_tagcount_counterexample :
    (initPoseEstimate.getPoseEstimate
      [1, 2, 3, 0, 0, 0, 0, -1, 0, 0, 0] 0).2 = some () ∧
    (initPoseEstimate.getPoseEstimate
      [1, 2, 3, 0, 0, 0, 0, -1, 0, 0, 0] 0).1.tagCount = -1 ∧
    ((initPoseEstimate.getPoseEstimate
      [1, 2, 3, 0, 0, 0, 0, -1, 0, 0, 0] 0).1.rawFiducials.length : ℤ) ≠
      (initPoseEstimate.getPoseEstimate
        [1, 2, 3, 0, 0, 0, 0, -1, 0, 0, 0] 0).1.tagCount := by
  refine ⟨rfl, rfl, by decide⟩

/-- Claim C2 as amended: every non-`None` result of `getPoseEstimate` has
`rawFiducials` of length `max(tagCount, 0)` (with `tagCount` truncated
from the double at index 7 and stored in the result); when the total
length differs from `11 + 7 * tagCount` the elements are all
default-constructed records with id `0` and every other field `0`, so
the list length never reflects whether fiducial data was actually
decoded. -/
theorem c2_amended_list_length (s : PoseEstimate) (arr : List ℚ) (t : ℤ)
    (s' : PoseEstimate) (h : s.getPoseEstimate arr t = (s', some ())) :
    s'.tagCount = pyTrunc (LimelightUtils.extractArrayEntry arr 7) ∧
    s'.rawFiducials.length = s'.tagCount.toNat ∧
    ((arr.length : ℤ) ≠ 11 + 7 * s'.tagCount →
      s'.rawFiducials =
        List.replicate s'.tagCount.toNat ⟨0, 0, 0, 0, 0, 0, 0⟩) := by
  unfold PoseEstimate.getPoseEstimate at h
  split at h
  · exact absurd (congrArg Prod.snd h) (by simp)
  · split at h
    · exact absurd (congrArg Prod.snd h) (by simp)
    · have h1 := congrArg Prod.fst h
      simp only at h1
      subst h1
      refine ⟨rfl, ?_, fun hlen => ?_⟩
      · show (decodedFiducials arr).length =
          (pyTrunc (LimelightUtils.extractArrayEntry arr 7)).toNat
        unfold decodedFiducials
        split
        · rw [List.length_replicate]
        · rw [List.length_map, List.length_range]
      · show decodedFiducials arr =
          List.replicate (pyTrunc (LimelightUtils.extractArrayEntry arr 7)).toNat
            ⟨0, 0, 0, 0, 0, 0, 0⟩
        unfold decodedFiducials
        rw [if_pos hlen]

/-- Claim C2 amended, concrete instance: the array
`[1,2,3,0,0,0,0,-1,0,0,0]` yields `tagCount = -1` and an empty fiducial
list (`max(-1, 0) = 0` placeholder records). -/
theorem c2_amended_list_length_witness :
    (initPoseEstimate.getPoseEstimate
      [1, 2, 3, 0, 0, 0, 0, -1, 0, 0, 0] 0).1.tagCount = -1 ∧
    (initPoseEstimate.getPoseEstimate
      [1, 2, 3, 0, 0, 0, 0, -1, 0, 0, 0] 0).1.rawFiducials.length =
      (initPoseEstimate.getPoseEstimate
        [1, 2, 3, 0, 0, 0, 0, -1, 0, 0, 0] 0).1.tagCount.toNat ∧
    (initPoseEstimate.getPoseEstimate
      [1, 2, 3, 0, 0, 0, 0, -1, 0, 0, 0] 0).1.rawFiducials =
      List.replicate (initPoseEstimate.getPoseEstimate
        [1, 2, 3, 0, 0, 0, 0, -1, 0, 0, 0] 0).1.tagCount.toNat
        ⟨0, 0, 0, 0, 0, 0, 0⟩ := by
  have h := c2_amended_list_length initPoseEstimate
    [1, 2, 3, 0, 0, 0, 0, -1, 0, 0, 0] 0
    (initPoseEstimate.getPoseEstimate
      [1, 2, 3, 0, 0, 0, 0, -1, 0, 0, 0] 0).1 rfl
  exact ⟨h.1.trans (by decide), h.2.1, h.2.2 (by decide)⟩

/-- Claim C3 counterexample: the method returns `self` (the same mutable
object) on every successful call, so a second successful poll overwrites
the fields of the object returned by the first.  Concretely: a first call
decodes latency `50`; a second call on the returned object decodes
latency `100`; afterwards the object returned by the first call (the same
cell) carries latency `100 ≠ 50`. -/
theorem c3_mutation_counterexample :
    (initPoseEstimate.getPoseEstimate
      [1, 2, 3, 0, 0, 0, 50, 0, 0, 0, 0] 0).2 = some () ∧
    ((initPoseEstimate.getPoseEstimate
      [1, 2, 3, 0, 0, 0, 50, 0, 0, 0, 0] 0).1.getPoseEstimate
        [1, 2, 3, 0, 0, 0, 100, 0, 0, 0, 0] 0).2 = some () ∧
    ((initPoseEstimate.getPoseEstimate
      [1, 2, 3, 0, 0, 0, 50, 0, 0, 0, 0] 0).1.getPoseEstimate
        [1, 2, 3, 0, 0, 0, 100, 0, 0, 0, 0] 0).1.latency ≠
      (initPoseEstimate.getPoseEstimate
        [1, 2, 3, 0, 0, 0, 50, 0, 0, 0, 0] 0).1.latency := by
  refine ⟨rfl, rfl, by decide⟩

/-- Claim C3 as amended: a successful `getPoseEstimate` call overwrites
every snapshot field of the single persistent `PoseEstimate` object with
values decoded from the current bus read alone — the post-call
field-state is independent of the prior state.  Records are therefore
not fresh immutable snapshots: the one mutable object is reused (and
cached across polls by the `BotPose` enum variant), and later successful
calls mutate what earlier calls returned. -/
theorem c3_amended_in_place_overwrite (s s' : PoseEstimate) (arr : List ℚ)
    (t : ℤ) (h : (s.getPoseEstimate arr t).2 = some ())
    (_h' : (s'.getPoseEstimate arr t).2 = some ()) :
    (s.getPoseEstimate arr t).1 = (s'.getPoseEstimate arr t).1 := by
  unfold PoseEstimate.getPoseEstimate at h ⊢
  by_cases hl : arr.length = 0
  · rw [if_pos hl] at h
    exact absurd h (by simp)
  · rcases hpose : LimelightUtils.toPose3d arr with _ | p
    · rw [if_neg hl, hpose] at h
      exact absurd h (by simp)
    · rw [if_neg hl, if_neg hl]

/-- Claim C3 amended, concrete instance: feeding the same second bus read
to a fresh object and to the object produced by an earlier successful
call yields identical field-states — the earlier call's result is fully
overwritten. -/
theorem c3_amended_in_place_overwrite_witness :
    (initPoseEstimate.getPoseEstimate
      [1, 2, 3, 0, 0, 0, 100, 0, 0, 0, 0] 0).1 =
    ((initPoseEstimate.getPoseEstimate
      [1, 2, 3, 0, 0, 0, 50, 0, 0, 0, 0] 0).1.getPoseEstimate
        [1, 2, 3, 0, 0, 0, 100, 0, 0, 0, 0] 0).1 :=
  c3_amended_in_place_overwrite initPoseEstimate
    (initPoseEstimate.getPoseEstimate
      [1, 2, 3, 0, 0, 0, 50, 0, 0, 0, 0] 0).1
    [1, 2, 3, 0, 0, 0, 100, 0, 0, 0, 0] 0 rfl rfl

/-- Invariant of the `PoseEstimate` object: in every reachable
field-state, an empty fiducial list forces `hasData = false` (the success
path sets `hasData = len(rawFiducials) > 0`, the empty-array path clears
it, and the failed-pose path leaves the state untouched). -/
theorem reachable_empty_fiducials_hasData (s : PoseEstimate)
    (h : ReachablePoseEstimate s) :
    s.rawFiducials = [] → s.hasData = false := by
  induction h with
  | init => intro _; rfl
  | step s0 arr t hr ih =>
      intro he
      unfold PoseEstimate.getPoseEstimate at he ⊢
      by_cases hl : arr.length = 0
      · rw [if_pos hl]
      · rcases hpose : LimelightUtils.toPose3d arr with _ | p
        · rw [if_neg hl, hpose] at he
          rw [if_neg hl]
          exact ih he
        · rw [if_neg hl, hpose] at he
          rw [if_neg hl]
          have he' : decodedFiducials arr = [] := he
          show decide (0 < (decodedFiducials arr).length) = false
          rw [he']
          rfl

/-- Claim C9: whenever the fiducial list of a (reachable) `PoseEstimate`
is empty, `getMinTagAmbiguity`, `getMaxTagAmbiguity` and
`getAvgTagAmbiguity` all return exactly `1` — a defined value (`some`),
not an error. -/
theorem c9_empty_fiducials_ambiguity_one (s : PoseEstimate)
    (h : ReachablePoseEstimate s) (he : s.rawFiducials = []) :
    s.getMinTagAmbiguity = some 1 ∧ s.getMaxTagAmbiguity = some 1 ∧
    s.getAvgTagAmbiguity = some 1 := by
  have hd : s.hasData = false := reachable_empty_fiducials_hasData s h he
  simp [PoseEstimate.getMinTagAmbiguity, PoseEstimate.getMaxTagAmbiguity,
    PoseEstimate.getAvgTagAmbiguity, hd]

/-- Claim C9, concrete instance: the freshly constructed `PoseEstimate`
(empty fiducial list) reports min, max and average ambiguity `1`. -/
theorem c9_empty_fiducials_ambiguity_one_witness :
    initPoseEstimate.getMinTagAmbiguity = some 1 ∧
    initPoseEstimate.getMaxTagAmbiguity = some 1 ∧
    initPoseEstimate.getAvgTagAmbiguity = some 1 :=
  c9_empty_fiducials_ambiguity_one initPoseEstimate
    ReachablePoseEstimate.init rfl
